import Mathlib

/-!
Verification of the data-transformation core of the SolarZ monitoring
dashboard (`analise.py`).  The script loads a CSV table with pandas,
derives warranty / operational status columns, filters rows by a
generation-percentage bucket, and counts rows into six fixed bands.

Shallow embedding: a cell of the table is a rational number, a text
value, a date (days since an arbitrary epoch), or missing (pandas NaN /
NaT).  A row is an association list from column names to cells, a
DataFrame is a column list plus a row list.  All pandas column
operations of the script are per-row pointwise maps, so they are
embedded as maps over the row list.
-/

namespace SolarZ

/-- One cell of the table: numeric, text, datetime or missing (NaN/NaT). -/
inductive Cell where
  | num (q : Rat)
  | str (s : String)
  | date (d : Int)
  | na
deriving DecidableEq

/-- A row: association list from column name to cell value. -/
abbrev Row := List (String × Cell)

/-- A table: ordered column names plus rows. -/
structure DataFrame where
  cols : List String
  rows : List Row
deriving DecidableEq

/-- Value of column `c` in row `r`; a column absent from the row reads as
missing, mirroring how a dropped/NaN pandas entry behaves in comparisons. -/
def getCell : Row → String → Cell
  | [], _ => Cell.na
  | (k, v) :: r, c => if k = c then v else getCell r c

/-- Does the row carry an entry for column `c`? -/
def hasKey (r : Row) (c : String) : Bool :=
  r.any (fun p => p.1 = c)

/-- Overwrite the value of an existing column `c` in row `r`
(`df[col] = series` on a column that is already present). -/
def setCell (r : Row) (c : String) (v : Cell) : Row :=
  r.map (fun p => if p.1 = c then (c, v) else p)

/-- pandas column assignment `df[c] = series`: overwrite `c` when present,
append it otherwise. -/
def setCellA (r : Row) (c : String) (v : Cell) : Row :=
  if hasKey r c then setCell r c v else r ++ [(c, v)]

/-- Append a column name if it is not already present
(column-set effect of `df[c] = series`). -/
def addCol (cols : List String) (c : String) : List String :=
  if c ∈ cols then cols else cols ++ [c]

/-- Numeric value of the digit list `cs` (all characters assumed digits). -/
def digitsVal (cs : List Char) : Nat :=
  cs.foldl (fun n c => n * 10 + (c.toNat - 48)) 0

/-- Model of `pd.to_numeric` on a single string: an optional sign, then a
plain decimal literal.  Anything else fails (→ NaN under `errors='coerce'`). -/
def parseRat (s : String) : Option Rat :=
  let cs := s.toList
  let signed : Bool × List Char :=
    match cs with
    | '-' :: rest => (true, rest)
    | '+' :: rest => (false, rest)
    | _ => (false, cs)
  let intPart := signed.2.takeWhile Char.isDigit
  let rest := signed.2.dropWhile Char.isDigit
  let body : Option Rat :=
    match rest with
    | [] =>
      if intPart.isEmpty then none
      else some ((digitsVal intPart : Nat) : Rat)
    | '.' :: frac =>
      if frac.all Char.isDigit && !(intPart.isEmpty && frac.isEmpty) then
        some ((digitsVal intPart : Nat) + (digitsVal frac : Nat) / (10 : Rat) ^ frac.length)
      else none
    | _ => none
  body.map (fun q => if signed.1 then -q else q)

/-- The string cleaning at line 52 of `analise.py`: drop every `%` and turn
each `,` into a decimal point. -/
def cleanNumStr (s : String) : String :=
  String.mk ((s.toList.filter (fun c => c ≠ '%')).map (fun c => if c = ',' then '.' else c))

/-- Numeric coercion of one generation cell (lines 49–57): numbers pass
through, strings are cleaned and parsed, everything else becomes missing. -/
def coerceGeneration : Cell → Option Rat
  | Cell.num q => some q
  | Cell.str s => parseRat (cleanNumStr s)
  | Cell.date _ => none
  | Cell.na => none

/-- The coerced cell written back into the column by line 57. -/
def coerceCell (c : Cell) : Cell :=
  match coerceGeneration c with
  | some q => Cell.num q
  | none => Cell.na

/-- Numeric value of column `col` in row `r`, if the cell is numeric. -/
def cellVal (r : Row) (col : String) : Option Rat :=
  match getCell r col with
  | Cell.num q => some q
  | _ => none

/-- A pandas elementwise comparison on column `col`: missing values compare
false (`NaN > 90` is `False`). -/
def cellTest (r : Row) (col : String) (p : Rat → Bool) : Bool :=
  match cellVal r col with
  | some q => p q
  | none => false

/-- Lines 45–61 of `apply_generation_range_filter`: coerce column `col` of
every row to numeric, then drop the rows whose coerced value is missing
(`dropna(subset=[col])`). -/
def keptRows (col : String) (rows : List Row) : List Row :=
  (rows.map (fun r => setCell r col (coerceCell (getCell r col)))).filter
    (fun r => (cellVal r col).isSome)

/-- The helper `apply_generation_range_filter` (lines 37–82 of `analise.py`). -/
def apply_generation_range_filter (df_to_filter : DataFrame)
    (generation_col faixa_geracao : String) : DataFrame :=
  if faixa_geracao = "Todos" then df_to_filter
  else if generation_col ∉ df_to_filter.cols then df_to_filter
  else
    let kept := keptRows generation_col df_to_filter.rows
    if kept.isEmpty then { cols := df_to_filter.cols, rows := [] }
    else if faixa_geracao = "> 90%" then
      { cols := df_to_filter.cols
        rows := kept.filter (fun r => cellTest r generation_col (fun q => decide (90 < q))) }
    else if faixa_geracao = "80% < x <= 90%" then
      { cols := df_to_filter.cols
        rows := kept.filter (fun r =>
          cellTest r generation_col (fun q => decide (80 < q) && decide (q ≤ 90))) }
    else if faixa_geracao = "70% < x <= 80%" then
      { cols := df_to_filter.cols
        rows := kept.filter (fun r =>
          cellTest r generation_col (fun q => decide (70 < q) && decide (q ≤ 80))) }
    else if faixa_geracao = "60% < x <= 70%" then
      { cols := df_to_filter.cols
        rows := kept.filter (fun r =>
          cellTest r generation_col (fun q => decide (60 < q) && decide (q ≤ 70))) }
    else if faixa_geracao = "50% < x <= 60%" then
      { cols := df_to_filter.cols
        rows := kept.filter (fun r =>
          cellTest r generation_col (fun q => decide (50 < q) && decide (q ≤ 60))) }
    else if faixa_geracao = "< 45%" then
      { cols := df_to_filter.cols
        rows := kept.filter (fun r => cellTest r generation_col (fun q => decide (q < 45))) }
    else { cols := df_to_filter.cols, rows := kept }

/-- The six non-trivial bucket labels offered by the sidebar selectbox
(line 96), i.e. every option except `Todos`. -/
def bucketLabels : List String :=
  ["> 90%", "80% < x <= 90%", "70% < x <= 80%", "60% < x <= 70%", "50% < x <= 60%", "< 45%"]

/-- The boundary predicate each bucket label stands for, read off the
branches at lines 70–81. -/
def faixaPred (faixa : String) (q : Rat) : Bool :=
  if faixa = "> 90%" then decide (90 < q)
  else if faixa = "80% < x <= 90%" then decide (80 < q) && decide (q ≤ 90)
  else if faixa = "70% < x <= 80%" then decide (70 < q) && decide (q ≤ 80)
  else if faixa = "60% < x <= 70%" then decide (60 < q) && decide (q ≤ 70)
  else if faixa = "50% < x <= 60%" then decide (50 < q) && decide (q ≤ 60)
  else if faixa = "< 45%" then decide (q < 45)
  else true

/-- Datetime value of a cell after `pd.to_datetime(..., errors='coerce')`:
a date passes through, everything else is missing (NaT). -/
def dateVal : Cell → Option Int
  | Cell.date d => some d
  | _ => none

/-- The coerced datetime cell written back into a date column. -/
def toDatetimeCell (c : Cell) : Cell :=
  match dateVal c with
  | some d => Cell.date d
  | none => Cell.na

/-- Coercion `pd.to_numeric(..., errors='coerce')` of the power column (line 20). -/
def toNumericCell (c : Cell) : Cell :=
  match c with
  | Cell.num q => Cell.num q
  | Cell.str s => match parseRat s with
    | some q => Cell.num q
    | none => Cell.na
  | _ => Cell.na

/-- Line 29 of `analise.py`: warranty status from the (coerced)
installation date.  `data_um_ano_atras = data_atual - 365` days. -/
def statusGarantia (data_atual : Int) (x : Option Int) : String :=
  match x with
  | some d => if d < data_atual - 365 then "Fora da Garantia" else "Na Garantia"
  | none => "Na Garantia"

/-- Line 30 of `analise.py`: operational status from the offline date. -/
def statusOperacional (x : Option Int) : String :=
  match x with
  | some _ => "Offline"
  | none => "Online"

/-- The per-row effect of `load_data` (lines 16–32): coerce the power and
the two date columns, then derive the two status columns from the coerced
dates.  `data_atual` is the evaluation date in days. -/
def deriveRow (data_atual : Int) (r : Row) : Row :=
  let r1 := setCellA r "Potência do Sistema" (toNumericCell (getCell r "Potência do Sistema"))
  let r2 := setCellA r1 "Data de Instalção" (toDatetimeCell (getCell r1 "Data de Instalção"))
  let r3 := setCellA r2 "Data Off-Line" (toDatetimeCell (getCell r2 "Data Off-Line"))
  let r4 := setCellA r3 "Status da Garantia"
    (Cell.str (statusGarantia data_atual (dateVal (getCell r3 "Data de Instalção"))))
  setCellA r4 "Status Operacional"
    (Cell.str (statusOperacional (dateVal (getCell r4 "Data Off-Line"))))

/-- The loader `load_data` (lines 16–32).  The pandas reads `df['Potência do Sistema']`,
`df['Data de Instalção']`, `df['Data Off-Line']` raise `KeyError` when the
CSV lacks those columns, so loading only succeeds when they are present;
the two status assignments create their columns when absent. -/
def load_data (data_atual : Int) (raw : DataFrame) : Option DataFrame :=
  if "Potência do Sistema" ∈ raw.cols ∧ "Data de Instalção" ∈ raw.cols ∧
      "Data Off-Line" ∈ raw.cols then
    some { cols := addCol (addCol raw.cols "Status da Garantia") "Status Operacional"
           rows := raw.rows.map (deriveRow data_atual) }
  else none

/-- Line 149: total plant count over the base table. -/
def total_usinas_global (df : DataFrame) : Nat :=
  df.rows.length

/-- Line 150: plants whose operational status is Online, over the base table. -/
def usinas_online_global (df : DataFrame) : Nat :=
  (df.rows.filter (fun r => decide (getCell r "Status Operacional" = Cell.str "Online"))).length

/-- Line 151: plants whose operational status is Offline, over the base table. -/
def usinas_offline_global (df : DataFrame) : Nat :=
  (df.rows.filter (fun r => decide (getCell r "Status Operacional" = Cell.str "Offline"))).length

/-- Line 201: rows with daily generation strictly above 90. -/
def mais_que_90 (df : DataFrame) (col : String) : Nat :=
  (df.rows.filter (fun r => cellTest r col (fun q => decide (90 < q)))).length

/-- Line 202: rows with daily generation in `(80, 90]`. -/
def mais_que_80_menos_que_90 (df : DataFrame) (col : String) : Nat :=
  (df.rows.filter (fun r => cellTest r col (fun q => decide (80 < q) && decide (q ≤ 90)))).length

/-- Line 203: rows with daily generation in `(70, 80]`. -/
def mais_que_70_menos_que_80 (df : DataFrame) (col : String) : Nat :=
  (df.rows.filter (fun r => cellTest r col (fun q => decide (70 < q) && decide (q ≤ 80)))).length

/-- Line 204: rows with daily generation in `(60, 70]`. -/
def mais_que_60_menos_que_70 (df : DataFrame) (col : String) : Nat :=
  (df.rows.filter (fun r => cellTest r col (fun q => decide (60 < q) && decide (q ≤ 70)))).length

/-- Line 205: rows with daily generation in `(50, 60]`. -/
def mais_que_50_menos_que_60 (df : DataFrame) (col : String) : Nat :=
  (df.rows.filter (fun r => cellTest r col (fun q => decide (50 < q) && decide (q ≤ 60)))).length

/-- Line 206: rows with daily generation strictly below 45. -/
def menos_que_45 (df : DataFrame) (col : String) : Nat :=
  (df.rows.filter (fun r => cellTest r col (fun q => decide (q < 45)))).length

/-- Sum of the six per-bucket counts (the `Quantidade de Usinas` column of
the bar-chart table, lines 217–224). -/
def somaContagens (df : DataFrame) (col : String) : Nat :=
  mais_que_90 df col + mais_que_80_menos_que_90 df col + mais_que_70_menos_que_80 df col +
    mais_que_60_menos_que_70 df col + mais_que_50_menos_que_60 df col + menos_que_45 df col

/-- The four sidebar selections (lines 84–117). -/
structure Selections where
  periodo_geracao : String
  faixa_geracao : String
  warranty_status : String
  operational_status : String
deriving DecidableEq

/-- Lines 120–129: the base table filtered by the warranty and operational
status selections (`Todos` is a no-op for each). -/
def filtered_df (df : DataFrame) (s : Selections) : DataFrame :=
  let d1 :=
    if s.warranty_status ≠ "Todos" then
      { cols := df.cols
        rows := df.rows.filter
          (fun r => decide (getCell r "Status da Garantia" = Cell.str s.warranty_status)) }
    else df
  if s.operational_status ≠ "Todos" then
    { cols := d1.cols
      rows := d1.rows.filter
        (fun r => decide (getCell r "Status Operacional" = Cell.str s.operational_status)) }
  else d1

/-- Lines 149–151: the three summary metrics, computed on the base table. -/
def summaryMetrics (df : DataFrame) : Nat × Nat × Nat :=
  (total_usinas_global df, usinas_online_global df, usinas_offline_global df)

/-- Lines 196–199: the table feeding the daily chart; the generation-range
filter applies only when the period selection is `Diário` or `Todos`. -/
def df_for_daily_chart (df : DataFrame) (s : Selections) : DataFrame :=
  if s.periodo_geracao = "Diário" ∨ s.periodo_geracao = "Todos" then
    apply_generation_range_filter (filtered_df df s) "Geração % diária" s.faixa_geracao
  else filtered_df df s

/-- Lines 201–206: the six daily bucket counts. -/
def dailyCounts (df : DataFrame) (s : Selections) : Nat × Nat × Nat × Nat × Nat × Nat :=
  let d := df_for_daily_chart df s
  (mais_que_90 d "Geração % diária", mais_que_80_menos_que_90 d "Geração % diária",
    mais_que_70_menos_que_80 d "Geração % diária", mais_que_60_menos_que_70 d "Geração % diária",
    mais_que_50_menos_que_60 d "Geração % diária", menos_que_45 d "Geração % diária")

/-- Everything the script derives from the base table and the selections in
one pass: the summary metrics, the filtered table shown at line 368, and
the daily bucket counts. -/
structure DashboardView where
  metrics : Nat × Nat × Nat
  dadosFiltrados : DataFrame
  daily : Nat × Nat × Nat × Nat × Nat × Nat
deriving DecidableEq

/-- One top-to-bottom run of the script body over the cached table. -/
def renderDashboard (df : DataFrame) (s : Selections) : DashboardView :=
  { metrics := summaryMetrics df
    dadosFiltrados := filtered_df df s
    daily := dailyCounts df s }

/-- The generation-range filter followed by the six bucket counts on its
output (lines 199–206), the filter/aggregate step of one interaction. -/
def runFilterAndCount (df : DataFrame) (col faixa : String) :
    DataFrame × (Nat × Nat × Nat × Nat × Nat × Nat) :=
  let out := apply_generation_range_filter df col faixa
  (out, (mais_que_90 out col, mais_que_80_menos_que_90 out col, mais_que_70_menos_que_80 out col,
    mais_que_60_menos_que_70 out col, mais_que_50_menos_que_60 out col, menos_que_45 out col))

/-- One user interaction: run the filter/aggregate step over the cached
table and hand the (unmodified) cache to the next interaction.  The script
works on `df.copy()` throughout, so the cache is returned as-is. -/
def interact (cache : DataFrame) (col faixa : String) :
    (DataFrame × (Nat × Nat × Nat × Nat × Nat × Nat)) × DataFrame :=
  (runFilterAndCount cache col faixa, cache)

/-! ## Concrete example tables used by the witnesses -/

/-- A one-plant CSV whose plant was installed 400 days before evaluation
date 1000 and has no offline date. -/
def raw3 : DataFrame :=
  ⟨["Potência do Sistema", "Data de Instalção", "Data Off-Line"],
    [[("Potência do Sistema", Cell.num 5), ("Data de Instalção", Cell.date 600),
      ("Data Off-Line", Cell.na)]]⟩

/-- The table `load_data` produces from `raw3` at evaluation date 1000. -/
def row3 : Row :=
  [("Potência do Sistema", Cell.num 5), ("Data de Instalção", Cell.date 600),
    ("Data Off-Line", Cell.na), ("Status da Garantia", Cell.str "Fora da Garantia"),
    ("Status Operacional", Cell.str "Online")]

def df3 : DataFrame :=
  ⟨["Potência do Sistema", "Data de Instalção", "Data Off-Line", "Status da Garantia",
    "Status Operacional"], [row3]⟩

/-- A one-plant CSV whose plant has an offline date. -/
def raw8 : DataFrame :=
  ⟨["Potência do Sistema", "Data de Instalção", "Data Off-Line"],
    [[("Potência do Sistema", Cell.na), ("Data de Instalção", Cell.na),
      ("Data Off-Line", Cell.date 900)]]⟩

/-- The table `load_data` produces from `raw8` at evaluation date 1000. -/
def row8 : Row :=
  [("Potência do Sistema", Cell.na), ("Data de Instalção", Cell.na),
    ("Data Off-Line", Cell.date 900), ("Status da Garantia", Cell.str "Na Garantia"),
    ("Status Operacional", Cell.str "Offline")]

def df8 : DataFrame :=
  ⟨["Potência do Sistema", "Data de Instalção", "Data Off-Line", "Status da Garantia",
    "Status Operacional"], [row8]⟩

/-! ## Basic lemmas about row access and update -/

theorem setCell_cons (k : String) (w : Cell) (r : Row) (c : String) (v : Cell) :
    setCell ((k, w) :: r) c v = (if k = c then (c, v) else (k, w)) :: setCell r c v := rfl

theorem hasKey_cons (k : String) (w : Cell) (r : Row) (c : String) :
    hasKey ((k, w) :: r) c = (decide (k = c) || hasKey r c) := by
  simp [hasKey]

theorem getCell_setCell_self (r : Row) (c : String) (v : Cell) :
    getCell (setCell r c v) c = if hasKey r c then v else Cell.na := by
  induction r with
  | nil => simp [setCell, getCell, hasKey]
  | cons p r ih =>
    obtain ⟨k, w⟩ := p
    rw [setCell_cons, hasKey_cons]
    by_cases hk : k = c
    · rw [if_pos hk]
      show getCell ((c, v) :: setCell r c v) c = _
      simp [getCell, hk]
    · rw [if_neg hk]
      show getCell ((k, w) :: setCell r c v) c = _
      simp [getCell, hk, ih]

theorem getCell_setCell_ne (r : Row) (c c' : String) (v : Cell) (h : c' ≠ c) :
    getCell (setCell r c' v) c = getCell r c := by
  induction r with
  | nil => rfl
  | cons p r ih =>
    obtain ⟨k, w⟩ := p
    rw [setCell_cons]
    by_cases hk : k = c'
    · rw [if_pos hk]
      show getCell ((c', v) :: setCell r c' v) c = getCell ((k, w) :: r) c
      simp [getCell, h, hk, ih]
    · rw [if_neg hk]
      show getCell ((k, w) :: setCell r c' v) c = getCell ((k, w) :: r) c
      by_cases hkc : k = c
      · simp [getCell, hkc]
      · simp [getCell, hkc, ih]

theorem getCell_append_not_hasKey (r : Row) (c : String) (v : Cell)
    (h : hasKey r c = false) : getCell (r ++ [(c, v)]) c = v := by
  induction r with
  | nil => simp [getCell]
  | cons p r ih =>
    obtain ⟨k, w⟩ := p
    rw [hasKey_cons] at h
    simp only [Bool.or_eq_false_iff, decide_eq_false_iff_not] at h
    show getCell ((k, w) :: (r ++ [(c, v)])) c = v
    simp [getCell, h.1, ih h.2]

theorem getCell_append_ne (r : Row) (c c' : String) (v : Cell) (h : c' ≠ c) :
    getCell (r ++ [(c', v)]) c = getCell r c := by
  induction r with
  | nil => simp [getCell, h]
  | cons p r ih =>
    obtain ⟨k, w⟩ := p
    show getCell ((k, w) :: (r ++ [(c', v)])) c = _
    by_cases hk : k = c
    · simp [getCell, hk]
    · simp [getCell, hk, ih]

theorem getCell_setCellA_self (r : Row) (c : String) (v : Cell) :
    getCell (setCellA r c v) c = v := by
  unfold setCellA
  by_cases h : hasKey r c
  · rw [if_pos h, getCell_setCell_self, if_pos h]
  · rw [if_neg h]
    exact getCell_append_not_hasKey r c v (by simpa using h)

theorem getCell_setCellA_ne (r : Row) (c c' : String) (v : Cell) (h : c' ≠ c) :
    getCell (setCellA r c' v) c = getCell r c := by
  unfold setCellA
  by_cases hk : hasKey r c'
  · rw [if_pos hk, getCell_setCell_ne r c c' v h]
  · rw [if_neg hk, getCell_append_ne r c c' v h]

/-! ## Derived status columns of a loaded row -/

/-- What each relevant column of a loaded row holds, in terms of the raw
row: the two date columns are coerced in place, and the two status columns
hold exactly the values lines 29–30 derive from the coerced dates. -/
theorem deriveRow_getters (d : Int) (r : Row) :
    getCell (deriveRow d r) "Data de Instalção" = toDatetimeCell (getCell r "Data de Instalção")
    ∧ getCell (deriveRow d r) "Data Off-Line" = toDatetimeCell (getCell r "Data Off-Line")
    ∧ getCell (deriveRow d r) "Status da Garantia"
        = Cell.str (statusGarantia d (dateVal (toDatetimeCell (getCell r "Data de Instalção"))))
    ∧ getCell (deriveRow d r) "Status Operacional"
        = Cell.str (statusOperacional (dateVal (toDatetimeCell (getCell r "Data Off-Line")))) := by
  simp only [deriveRow]
  refine ⟨?_, ?_, ?_, ?_⟩
  · rw [getCell_setCellA_ne _ "Data de Instalção" "Status Operacional" _ (by decide),
      getCell_setCellA_ne _ "Data de Instalção" "Status da Garantia" _ (by decide),
      getCell_setCellA_ne _ "Data de Instalção" "Data Off-Line" _ (by decide),
      getCell_setCellA_self,
      getCell_setCellA_ne _ "Data de Instalção" "Potência do Sistema" _ (by decide)]
  · rw [getCell_setCellA_ne _ "Data Off-Line" "Status Operacional" _ (by decide),
      getCell_setCellA_ne _ "Data Off-Line" "Status da Garantia" _ (by decide),
      getCell_setCellA_self,
      getCell_setCellA_ne _ "Data Off-Line" "Data de Instalção" _ (by decide),
      getCell_setCellA_ne _ "Data Off-Line" "Potência do Sistema" _ (by decide)]
  · rw [getCell_setCellA_ne _ "Status da Garantia" "Status Operacional" _ (by decide),
      getCell_setCellA_self,
      getCell_setCellA_ne _ "Data de Instalção" "Data Off-Line" _ (by decide),
      getCell_setCellA_self,
      getCell_setCellA_ne _ "Data de Instalção" "Potência do Sistema" _ (by decide)]
  · rw [getCell_setCellA_self,
      getCell_setCellA_ne _ "Data Off-Line" "Status da Garantia" _ (by decide),
      getCell_setCellA_self,
      getCell_setCellA_ne _ "Data Off-Line" "Data de Instalção" _ (by decide),
      getCell_setCellA_ne _ "Data Off-Line" "Potência do Sistema" _ (by decide)]

/-! ## Theorems -/

/-- A true `cellTest` exhibits the numeric value it tested. -/
theorem cellTest_eq_true {r : Row} {col : String} {p : Rat → Bool}
    (h : cellTest r col p = true) : ∃ q, cellVal r col = some q ∧ p q = true := by
  unfold cellTest at h
  rcases hq : cellVal r col with _ | q
  · rw [hq] at h
    simp at h
  · rw [hq] at h
    exact ⟨q, rfl, h⟩

/-- Dropping the guard at line 65: filtering an empty kept list is the same
as guarding on emptiness first. -/
theorem ite_isEmpty_filter (l : List Row) (p : Row → Bool) :
    (if l.isEmpty then ([] : List Row) else l.filter p) = l.filter p := by
  split
  · next h =>
    rw [List.isEmpty_iff.mp h]
    rfl
  · rfl

/-- For a non-`Todos` bucket label and a present column, the filter's output
rows are exactly the coerced-and-kept rows that pass that bucket's
predicate (this also covers the empty-result branch at line 67, where both
sides are empty). -/
theorem bucket_branch_rows (df : DataFrame) (col faixa : String)
    (hcol : col ∈ df.cols) (hf : faixa ∈ bucketLabels) :
    (apply_generation_range_filter df col faixa).rows
      = (keptRows col df.rows).filter (fun r => cellTest r col (fun q => faixaPred faixa q)) := by
  simp only [bucketLabels, List.mem_cons, List.not_mem_nil, or_false] at hf
  rcases hf with rfl | rfl | rfl | rfl | rfl | rfl <;>
    (simp [apply_generation_range_filter, faixaPred, hcol, apply_ite DataFrame.rows]
     intro h a ha
     rw [h] at ha
     simp at ha)

/-- C1 (amended): provided the named column is present in the input table,
filtering by any bucket label other than `Todos` returns only rows whose
coerced column value satisfies that bucket's boundary predicate; moreover
the six bucket predicates are pairwise disjoint, and none accepts a value
in the interval `(45, 50]`. -/
theorem bucket_filter_sound :
    (∀ (df : DataFrame) (col faixa : String), faixa ∈ bucketLabels → col ∈ df.cols →
      ∀ r ∈ (apply_generation_range_filter df col faixa).rows,
        ∃ q, cellVal r col = some q ∧ faixaPred faixa q = true)
    ∧ (∀ f₁ f₂, f₁ ∈ bucketLabels → f₂ ∈ bucketLabels → f₁ ≠ f₂ →
      ∀ q : Rat, ¬(faixaPred f₁ q = true ∧ faixaPred f₂ q = true))
    ∧ (∀ q : Rat, 45 < q → q ≤ 50 → ∀ f ∈ bucketLabels, faixaPred f q = false) := by
  refine ⟨?_, ?_, ?_⟩
  · intro df col faixa hf hcol r hr
    rw [bucket_branch_rows df col faixa hcol hf] at hr
    exact cellTest_eq_true (List.mem_filter.mp hr).2
  · intro f₁ f₂ h₁ h₂ hne q
    rintro ⟨hq₁, hq₂⟩
    simp only [bucketLabels, List.mem_cons, List.not_mem_nil, or_false] at h₁ h₂
    rcases h₁ with rfl | rfl | rfl | rfl | rfl | rfl <;>
      rcases h₂ with rfl | rfl | rfl | rfl | rfl | rfl <;>
      simp_all [faixaPred] <;> linarith
  · intro q h45 h50 f hf
    simp only [bucketLabels, List.mem_cons, List.not_mem_nil, or_false] at hf
    rcases hf with rfl | rfl | rfl | rfl | rfl | rfl <;>
      simp [faixaPred] <;> intros <;> linarith

/-- C1 as frozen fails without the column-presence proviso: with the named
column absent, the filter returns the input unchanged (line 43), and the
returned row has no coerced value satisfying the `> 90%` predicate. -/
theorem bucket_filter_sound_counterexample :
    "> 90%" ∈ bucketLabels ∧
    [("a", Cell.num 1)]
      ∈ (apply_generation_range_filter ⟨["a"], [[("a", Cell.num 1)]]⟩ "b" "> 90%").rows ∧
    cellVal [("a", Cell.num 1)] "b" = none := by
  refine ⟨by decide, by decide, by decide⟩

/-- Witness for C1 (amended) at a concrete one-row table. -/
theorem bucket_filter_sound_witness :
    ∃ q, cellVal [("Geração % diária", Cell.num 95)] "Geração % diária" = some q ∧
      faixaPred "> 90%" q = true :=
  bucket_filter_sound.1 ⟨["Geração % diária"], [[("Geração % diária", Cell.num 95)]]⟩
    "Geração % diária" "> 90%" (by decide) (by decide)
    [("Geração % diária", Cell.num 95)] (by decide)

/-- C2 as frozen fails in the missing-column case: the filter then returns
the input unchanged (line 43), not an empty result. -/
theorem empty_result_counterexample :
    "b" ∉ (⟨["a"], [[("a", Cell.num 1)]]⟩ : DataFrame).cols ∧
    (apply_generation_range_filter ⟨["a"], [[("a", Cell.num 1)]]⟩ "b" "> 90%").rows ≠ [] := by
  refine ⟨by decide, by decide⟩

/-- C2 (amended): for a bucket label other than `Todos`, a missing column
returns the input table unchanged, while a present column whose coercion
leaves no rows yields an empty result carrying the input's column set. -/
theorem empty_result_preserves_columns (df : DataFrame) (col faixa : String)
    (hfaixa : faixa ≠ "Todos") :
    (col ∉ df.cols → apply_generation_range_filter df col faixa = df)
    ∧ (col ∈ df.cols → keptRows col df.rows = [] →
        apply_generation_range_filter df col faixa = ⟨df.cols, []⟩) := by
  constructor
  · intro hcol
    simp [apply_generation_range_filter, hfaixa, hcol]
  · intro hcol hkept
    simp [apply_generation_range_filter, hfaixa, hcol, hkept]

/-- Witness for C2 (amended): a present column whose single value is not
numeric produces the empty table with the original column set. -/
theorem empty_result_preserves_columns_witness :
    apply_generation_range_filter ⟨["a"], [[("a", Cell.str "x")]]⟩ "a" "> 90%"
      = ⟨["a"], []⟩ :=
  (empty_result_preserves_columns ⟨["a"], [[("a", Cell.str "x")]]⟩ "a" "> 90%"
    (by decide)).2 (by decide) (by decide)

/-- Case analysis of the warranty lambda at line 29. -/
theorem statusGarantia_cases (d : Int) (x : Option Int) :
    (statusGarantia d x = "Fora da Garantia" ↔ ∃ v, x = some v ∧ 365 < d - v)
    ∧ (statusGarantia d x = "Na Garantia" ↔ ¬ ∃ v, x = some v ∧ 365 < d - v) := by
  cases x with
  | none => simp [statusGarantia]
  | some v =>
    by_cases hv : v < d - 365
    · simp only [statusGarantia, if_pos hv]
      simp
      omega
    · simp only [statusGarantia, if_neg hv]
      simp
      omega

/-- Case analysis of the operational lambda at line 30. -/
theorem statusOperacional_cases (x : Option Int) :
    (statusOperacional x = "Offline" ↔ ∃ v, x = some v)
    ∧ (statusOperacional x = "Online" ↔ x = none) := by
  cases x <;> simp [statusOperacional]

/-- Splitting a row list into the rows matched by `p` and those matched by
`q`, when every row matches exactly one of the two. -/
theorem length_filter_partition (p q : Row → Bool) (l : List Row)
    (h : ∀ r ∈ l, (p r = true ∧ q r = false) ∨ (p r = false ∧ q r = true)) :
    (l.filter p).length + (l.filter q).length = l.length := by
  induction l with
  | nil => rfl
  | cons a l ih =>
    have ha := h a (List.mem_cons_self a l)
    have ih' := ih (fun r hr => h r (List.mem_cons_of_mem a hr))
    rcases ha with ⟨h1, h2⟩ | ⟨h1, h2⟩ <;> simp [List.filter_cons, h1, h2] <;> omega

/-- Loaded rows are exactly the raw rows passed through `deriveRow`. -/
theorem load_data_rows (d : Int) (raw df : DataFrame)
    (h : load_data d raw = some df) :
    df.rows = raw.rows.map (deriveRow d) := by
  rw [load_data] at h
  split at h
  · cases h
    rfl
  · cases h

/-- C3: In every loaded table, a row's warranty status is `Fora da Garantia`
iff its (coerced) installation date is present and strictly more than 365
days before the evaluation date `d`; in every other case it is
`Na Garantia`. -/
theorem warranty_status_iff (d : Int) (raw df : DataFrame)
    (h : load_data d raw = some df) (r : Row) (hr : r ∈ df.rows) :
    (getCell r "Status da Garantia" = Cell.str "Fora da Garantia" ↔
      ∃ v, dateVal (getCell r "Data de Instalção") = some v ∧ 365 < d - v)
    ∧ (getCell r "Status da Garantia" = Cell.str "Na Garantia" ↔
      ¬ ∃ v, dateVal (getCell r "Data de Instalção") = some v ∧ 365 < d - v) := by
  rw [load_data_rows d raw df h] at hr
  obtain ⟨r0, _, rfl⟩ := List.mem_map.mp hr
  obtain ⟨hInst, _, hGar, _⟩ := deriveRow_getters d r0
  rw [hGar, hInst]
  obtain ⟨h1, h2⟩ := statusGarantia_cases d (dateVal (toDatetimeCell (getCell r0 "Data de Instalção")))
  constructor
  · rw [Cell.str.injEq]
    exact h1
  · rw [Cell.str.injEq]
    exact h2

/-- Witness for C3: a concrete load whose single plant was installed 400
days before the evaluation date, hence out of warranty. -/
theorem warranty_status_iff_witness :
    getCell row3 "Status da Garantia" = Cell.str "Fora da Garantia" ↔
      ∃ v, dateVal (getCell row3 "Data de Instalção") = some v ∧ 365 < (1000 : Int) - v :=
  (warranty_status_iff 1000 raw3 df3 (by decide) row3 (by decide)).1

/-- C8: In every loaded table, a row's operational status is `Offline` iff
its (coerced) offline date is present, and `Online` otherwise. -/
theorem operational_status_iff (d : Int) (raw df : DataFrame)
    (h : load_data d raw = some df) (r : Row) (hr : r ∈ df.rows) :
    (getCell r "Status Operacional" = Cell.str "Offline" ↔
      ∃ v, dateVal (getCell r "Data Off-Line") = some v)
    ∧ (getCell r "Status Operacional" = Cell.str "Online" ↔
      dateVal (getCell r "Data Off-Line") = none) := by
  rw [load_data_rows d raw df h] at hr
  obtain ⟨r0, _, rfl⟩ := List.mem_map.mp hr
  obtain ⟨_, hOff, _, hOp⟩ := deriveRow_getters d r0
  rw [hOp, hOff]
  obtain ⟨h1, h2⟩ := statusOperacional_cases (dateVal (toDatetimeCell (getCell r0 "Data Off-Line")))
  constructor
  · rw [Cell.str.injEq]
    exact h1
  · rw [Cell.str.injEq]
    exact h2

/-- Witness for C8: a concrete load whose single plant has an offline date,
hence is `Offline`. -/
theorem operational_status_iff_witness :
    getCell row8 "Status Operacional" = Cell.str "Offline" ↔
      ∃ v, dateVal (getCell row8 "Data Off-Line") = some v :=
  (operational_status_iff 1000 raw8 df8 (by decide) row8 (by decide)).1

/-- C10: In every loaded table, each row's operational status is exactly one
of `Online` / `Offline`, so the total plant count equals the online count
plus the offline count. -/
theorem total_eq_online_add_offline (d : Int) (raw df : DataFrame)
    (h : load_data d raw = some df) :
    (∀ r ∈ df.rows, getCell r "Status Operacional" = Cell.str "Online"
      ∨ getCell r "Status Operacional" = Cell.str "Offline")
    ∧ total_usinas_global df = usinas_online_global df + usinas_offline_global df := by
  have hstat : ∀ r ∈ df.rows, getCell r "Status Operacional" = Cell.str "Online"
      ∨ getCell r "Status Operacional" = Cell.str "Offline" := by
    intro r hr
    rw [load_data_rows d raw df h] at hr
    obtain ⟨r0, _, rfl⟩ := List.mem_map.mp hr
    obtain ⟨_, _, _, hOp⟩ := deriveRow_getters d r0
    rw [hOp]
    cases dateVal (toDatetimeCell (getCell r0 "Data Off-Line")) <;> simp [statusOperacional]
  refine ⟨hstat, ?_⟩
  have hpart : ∀ r ∈ df.rows,
      ((fun r => decide (getCell r "Status Operacional" = Cell.str "Online")) r = true ∧
        (fun r => decide (getCell r "Status Operacional" = Cell.str "Offline")) r = false) ∨
      ((fun r => decide (getCell r "Status Operacional" = Cell.str "Online")) r = false ∧
        (fun r => decide (getCell r "Status Operacional" = Cell.str "Offline")) r = true) := by
    intro r hr
    rcases hstat r hr with h1 | h1
    · left
      simp [h1]
    · right
      simp [h1]
  have := length_filter_partition _ _ df.rows hpart
  rw [total_usinas_global, usinas_online_global, usinas_offline_global]
  omega

/-- Witness for C10 on a concrete loaded table. -/
theorem total_eq_online_add_offline_witness :
    total_usinas_global df3 = usinas_online_global df3 + usinas_offline_global df3 :=
  (total_eq_online_add_offline 1000 raw3 df3 (by decide)).2

/-- Each row contributes to at most one of the six buckets of lines
201–206. -/
theorem row_hits_le_one (col : String) (a : Row) :
    (if cellTest a col (fun q => decide (90 < q)) then 1 else 0)
    + (if cellTest a col (fun q => decide (80 < q) && decide (q ≤ 90)) then 1 else 0)
    + (if cellTest a col (fun q => decide (70 < q) && decide (q ≤ 80)) then 1 else 0)
    + (if cellTest a col (fun q => decide (60 < q) && decide (q ≤ 70)) then 1 else 0)
    + (if cellTest a col (fun q => decide (50 < q) && decide (q ≤ 60)) then 1 else 0)
    + (if cellTest a col (fun q => decide (q < 45)) then 1 else 0) ≤ 1 := by
  rcases hq : cellVal a col with _ | q
  · simp [cellTest, hq]
  · simp only [cellTest, hq]
    split_ifs <;> simp_all <;> linarith

/-- A row whose column value lies in the gap `(45, 50]` contributes to no
bucket at all. -/
theorem row_hits_zero_of_gap (col : String) (a : Row) (q : Rat)
    (hq : cellVal a col = some q) (h1 : 45 < q) (h2 : q ≤ 50) :
    (if cellTest a col (fun q => decide (90 < q)) then 1 else 0)
    + (if cellTest a col (fun q => decide (80 < q) && decide (q ≤ 90)) then 1 else 0)
    + (if cellTest a col (fun q => decide (70 < q) && decide (q ≤ 80)) then 1 else 0)
    + (if cellTest a col (fun q => decide (60 < q) && decide (q ≤ 70)) then 1 else 0)
    + (if cellTest a col (fun q => decide (50 < q) && decide (q ≤ 60)) then 1 else 0)
    + (if cellTest a col (fun q => decide (q < 45)) then 1 else 0) = 0 := by
  simp only [cellTest, hq]
  split_ifs <;> simp_all <;> linarith

/-- Six `countP`s over one list are bounded by its length when each element
matches at most one of the six predicates. -/
theorem countP_six_le (p₁ p₂ p₃ p₄ p₅ p₆ : Row → Bool) (l : List Row)
    (h : ∀ r ∈ l, (if p₁ r then 1 else 0) + (if p₂ r then 1 else 0) + (if p₃ r then 1 else 0)
      + (if p₄ r then 1 else 0) + (if p₅ r then 1 else 0) + (if p₆ r then 1 else 0) ≤ 1) :
    l.countP p₁ + l.countP p₂ + l.countP p₃ + l.countP p₄ + l.countP p₅ + l.countP p₆
      ≤ l.length := by
  induction l with
  | nil => simp
  | cons a l ih =>
    have ha := h a (List.mem_cons_self a l)
    have ih' := ih (fun r hr => h r (List.mem_cons_of_mem a hr))
    simp only [List.countP_cons, List.length_cons]
    omega

/-- Six `countP`s fall strictly below the length when additionally some
element matches none of the six predicates. -/
theorem countP_six_lt (p₁ p₂ p₃ p₄ p₅ p₆ : Row → Bool) (l : List Row)
    (h : ∀ r ∈ l, (if p₁ r then 1 else 0) + (if p₂ r then 1 else 0) + (if p₃ r then 1 else 0)
      + (if p₄ r then 1 else 0) + (if p₅ r then 1 else 0) + (if p₆ r then 1 else 0) ≤ 1)
    (r : Row) (hr : r ∈ l)
    (h0 : (if p₁ r then 1 else 0) + (if p₂ r then 1 else 0) + (if p₃ r then 1 else 0)
      + (if p₄ r then 1 else 0) + (if p₅ r then 1 else 0) + (if p₆ r then 1 else 0) = 0) :
    l.countP p₁ + l.countP p₂ + l.countP p₃ + l.countP p₄ + l.countP p₅ + l.countP p₆
      < l.length := by
  induction l with
  | nil => cases hr
  | cons a l ih =>
    have h' := fun s hs => h s (List.mem_cons_of_mem a hs)
    simp only [List.countP_cons, List.length_cons]
    rcases List.mem_cons.mp hr with rfl | hr'
    · have hle := countP_six_le p₁ p₂ p₃ p₄ p₅ p₆ l h'
      omega
    · have hlt := ih h' hr'
      have ha := h a (List.mem_cons_self a l)
      omega

/-- C5: the six bucket counts of lines 201–206 sum to the table's row count
only when no row's value of the period column lies in the uncovered
interval `(45, 50]`; a row in that gap forces the counted sum strictly
below the row count. -/
theorem bucket_counts_gap (df : DataFrame) (col : String) :
    (somaContagens df col = total_usinas_global df →
      ∀ r ∈ df.rows, ∀ q : Rat, cellVal r col = some q → ¬(45 < q ∧ q ≤ 50))
    ∧ ((∃ r ∈ df.rows, ∃ q : Rat, cellVal r col = some q ∧ 45 < q ∧ q ≤ 50) →
      somaContagens df col < total_usinas_global df) := by
  have hconv : somaContagens df col
      = df.rows.countP (fun r => cellTest r col (fun q => decide (90 < q)))
      + df.rows.countP (fun r => cellTest r col (fun q => decide (80 < q) && decide (q ≤ 90)))
      + df.rows.countP (fun r => cellTest r col (fun q => decide (70 < q) && decide (q ≤ 80)))
      + df.rows.countP (fun r => cellTest r col (fun q => decide (60 < q) && decide (q ≤ 70)))
      + df.rows.countP (fun r => cellTest r col (fun q => decide (50 < q) && decide (q ≤ 60)))
      + df.rows.countP (fun r => cellTest r col (fun q => decide (q < 45))) := by
    simp [somaContagens, mais_que_90, mais_que_80_menos_que_90, mais_que_70_menos_que_80,
      mais_que_60_menos_que_70, mais_que_50_menos_que_60, menos_que_45,
      List.countP_eq_length_filter]
  have key : ∀ r ∈ df.rows, ∀ q : Rat, cellVal r col = some q → 45 < q → q ≤ 50 →
      somaContagens df col < total_usinas_global df := by
    intro r hr q hq h1 h2
    rw [hconv, total_usinas_global]
    exact countP_six_lt _ _ _ _ _ _ df.rows (fun s _ => row_hits_le_one col s) r hr
      (row_hits_zero_of_gap col r q hq h1 h2)
  constructor
  · intro hsum r hr q hq
    rintro ⟨h1, h2⟩
    have := key r hr q hq h1 h2
    omega
  · rintro ⟨r, hr, q, hq, h1, h2⟩
    exact key r hr q hq h1 h2

/-- Witness for C5 on a concrete table containing a gap-valued row. -/
theorem bucket_counts_gap_witness :
    somaContagens ⟨["Geração % diária"], [[("Geração % diária", Cell.num 48)]]⟩ "Geração % diária"
      < total_usinas_global ⟨["Geração % diária"], [[("Geração % diária", Cell.num 48)]]⟩ :=
  (bucket_counts_gap ⟨["Geração % diária"], [[("Geração % diária", Cell.num 48)]]⟩
    "Geração % diária").2
    ⟨[("Geração % diária", Cell.num 48)], by decide, 48, by decide, by decide, by decide⟩

/-- C6: For every input table, applying the generation-range filter with the
bucket label `Todos` is the identity transform: the returned table equals the
input table row for row and column for column. -/
theorem todos_filter_is_identity (df : DataFrame) (col : String) :
    apply_generation_range_filter df col "Todos" = df := by
  simp [apply_generation_range_filter]

/-- C7: For every input table and every bucket label other than `Todos`, if
the named generation column is absent from the table, the generation-range
filter returns the input table unchanged rather than failing. -/
theorem missing_column_returns_input (df : DataFrame) (col faixa : String)
    (hfaixa : faixa ≠ "Todos") (hcol : col ∉ df.cols) :
    apply_generation_range_filter df col faixa = df := by
  simp [apply_generation_range_filter, hfaixa, hcol]

/-- Witness for C7 at a concrete table lacking the column. -/
theorem missing_column_returns_input_witness :
    apply_generation_range_filter ⟨["a"], [[("a", Cell.num 1)]]⟩ "b" "> 90%"
      = ⟨["a"], [[("a", Cell.num 1)]]⟩ :=
  missing_column_returns_input ⟨["a"], [[("a", Cell.num 1)]]⟩ "b" "> 90%"
    (by decide) (by decide)

/-- C4: The three summary metrics are computed against the unfiltered base
table: two dashboard runs that differ only in the four sidebar selections
produce identical metric triples. -/
theorem summary_metrics_ignore_selections (df : DataFrame) (s₁ s₂ : Selections) :
    (renderDashboard df s₁).metrics = (renderDashboard df s₂).metrics := rfl

/-- C9: The filter and aggregate steps are deterministic: a second
interaction with the same column and bucket label, run over the cache left
behind by a first interaction, produces exactly the first interaction's
output (filtered table and six bucket counts). -/
theorem filter_and_count_deterministic (df : DataFrame) (col faixa : String) :
    (interact df col faixa).1 = (interact (interact df col faixa).2 col faixa).1 := rfl

end SolarZ
